import Mathlib

/-!
Verification development for the profiler report module
(`rvbd/profiler/report.py`): a shallow embedding of the report
lifecycle, the query/column machinery and the WAN summary merge,
with theorems about the behaviour of each embedded operation.
-/

namespace NetProfiler

/-! ### Python string and number primitives

Models of the Python builtins the module relies on: `str.replace`
(replaces every non-overlapping occurrence, left to right),
`str.startswith`, the substring test `a in b`, and the numeric
constructors `int(x)` / `float(x)` on strings (returning `none`
where Python raises `ValueError`). -/

/-- Errors raised by the embedded Python code. -/
inductive PyErr where
  | attributeError
  | indexError
  | keyError
  | valueError (msg : String)
  | rvbdError (msg : String)
deriving DecidableEq

instance {ε α : Type} [DecidableEq ε] [DecidableEq α] : DecidableEq (Except ε α)
  | .ok a, .ok b =>
    if h : a = b then .isTrue (by rw [h])
    else .isFalse (by intro he; cases he; exact h rfl)
  | .ok _, .error _ => .isFalse (fun h => Except.noConfusion h)
  | .error _, .ok _ => .isFalse (fun h => Except.noConfusion h)
  | .error e, .error e' =>
    if h : e = e' then .isTrue (by rw [h])
    else .isFalse (by intro he; cases he; exact h rfl)

/-- Fuel-indexed worker for `pyReplace`: scans the character list left to
right, splicing in the replacement at every non-overlapping match. -/
def replaceAllAux (pat rep : List Char) : Nat → List Char → List Char
  | 0, l => l
  | _ + 1, [] => []
  | fuel + 1, c :: rest =>
    if pat.isPrefixOf (c :: rest) then
      rep ++ replaceAllAux pat rep fuel (List.drop pat.length (c :: rest))
    else
      c :: replaceAllAux pat rep fuel rest

/-- Model of Python `s.replace(pat, rep)` for a non-empty pattern: every
non-overlapping occurrence of `pat` in `s` is replaced by `rep`, scanning
left to right.  (The module only calls it with the non-empty patterns
`"in_"` and `"out_"`.) -/
def pyReplace (s pat rep : String) : String :=
  if pat.data = [] then s
  else String.mk (replaceAllAux pat.data rep.data s.data.length s.data)

/-- Model of Python `s.startswith(pre)`. -/
def pyStartsWith (s pre : String) : Bool :=
  pre.data.isPrefixOf s.data

/-- Worker for the Python substring test. -/
def infixAux (pat : List Char) : List Char → Bool
  | [] => pat.isEmpty
  | c :: rest => pat.isPrefixOf (c :: rest) || infixAux pat rest

/-- Model of the Python membership test `a in b` on strings: `a` occurs
as a contiguous substring of `b`. -/
def pyInStr (a b : String) : Bool :=
  infixAux a.data b.data

/-- Accumulating decimal-digit parser: fails on a non-digit character. -/
def digitsValAux (acc : Nat) : List Char → Option Nat
  | [] => some acc
  | c :: rest =>
    if c.isDigit then digitsValAux (acc * 10 + (c.toNat - 48)) rest else none

/-- Parses a non-empty all-digit character list as a natural number. -/
def digitsVal (l : List Char) : Option Nat :=
  match l with
  | [] => none
  | _ :: _ => digitsValAux 0 l

/-- Model of Python `int(s)` on a string: an optional sign followed by
decimal digits; anything else raises `ValueError` (here: `none`). -/
def parseIntStr (s : String) : Option Int :=
  match s.data with
  | '-' :: rest => (digitsVal rest).map (fun n => -(n : Int))
  | '+' :: rest => (digitsVal rest).map (fun n => (n : Int))
  | l => (digitsVal l).map (fun n => (n : Int))

/-- Digit list folded to its decimal value (empty list gives 0). -/
def digitsToNatV (l : List Char) : Nat :=
  l.foldl (fun a c => a * 10 + (c.toNat - 48)) 0

/-- Exact decimal number: the value `mant / 10 ^ shift`.  This models the
floating values Python's `float` produces from the appliance's decimal
strings (not normalised; `⟨25, 1⟩` denotes 2.5). -/
structure Dec where
  mant : Int
  shift : Nat
deriving DecidableEq

/-- Unsigned part of Python `float(s)`: digits with an optional decimal
point, at least one digit overall. -/
def parseFloatChars (l : List Char) : Option Dec :=
  let ip := l.takeWhile (fun c => c ≠ '.')
  let rest := l.dropWhile (fun c => c ≠ '.')
  match rest with
  | [] =>
    if ip ≠ [] ∧ ip.all Char.isDigit then some ⟨(digitsToNatV ip : Int), 0⟩ else none
  | _ :: fp =>
    if (ip ≠ [] ∨ fp ≠ []) ∧ ip.all Char.isDigit ∧ fp.all Char.isDigit then
      some ⟨(digitsToNatV ip * 10 ^ fp.length + digitsToNatV fp : Int), fp.length⟩
    else none

/-- Model of Python `float(s)` on a string (returning `none` where Python
raises `ValueError`). -/
def parseFloatStr (s : String) : Option Dec :=
  match s.data with
  | '-' :: rest => (parseFloatChars rest).map (fun d => ⟨-d.mant, d.shift⟩)
  | '+' :: rest => parseFloatChars rest
  | l => parseFloatChars l

/-- A cell value of a report row: the JSON payload holds strings,
integers or floating values. -/
inductive Val where
  | s (v : String)
  | i (v : Int)
  | f (v : Dec)
deriving DecidableEq

/-- Model of Python `int(x)` on a cell value (truncating floats toward
zero, parsing strings, `none` where Python raises). -/
def pythonInt : Val → Option Int
  | .i n => some n
  | .f d => some (Int.tdiv d.mant ((10 ^ d.shift : Nat) : Int))
  | .s str => parseIntStr str

/-- Model of Python `float(x)` on a cell value (`none` where Python
raises `ValueError`). -/
def pythonFloat : Val → Option Dec
  | .i n => some ⟨n, 0⟩
  | .f d => some d
  | .s str => parseFloatStr str

/-! ### `Query._to_native`

Embedding of `Query._to_native` (report.py lines 64-75): each positional
value is coerced according to the type of the corresponding legend
column.  The `int` branch calls `int(x)` bare, so a failed integer
coercion raises; only the `float`/`reltime` branch is wrapped in
`try/except` and falls back to the unmodified value.  Note the source
writes the reltime test as `legend[i].json['type'] in 'reltime'`, a
Python substring test, which is reproduced here. -/

/-- Coerces one cell according to its legend column type, exactly as the
loop body of `_to_native` does. -/
def toNativeCell (t : String) (x : Val) : Except PyErr Val :=
  if t = "int" then
    match pythonInt x with
    | some n => .ok (.i n)
    | none => .error (.valueError "invalid literal for int")
  else if t = "float" || pyInStr t "reltime" then
    match pythonFloat x with
    | some q => .ok (.f q)
    | none => .ok x
  else .ok x

/-- Embedding of `Query._to_native`: coerce every cell of the row using
the legend's column types; a row longer than the legend raises
`IndexError`, and a failing `int` coercion propagates its error. -/
def toNative : List String → List Val → Except PyErr (List Val)
  | _, [] => .ok []
  | [], _ :: _ => .error .indexError
  | t :: ts, x :: xs =>
    match toNativeCell t x with
    | .error e => .error e
    | .ok y =>
      match toNative ts xs with
      | .error e => .error e
      | .ok ys => .ok (y :: ys)

example : toNative ["int", "float", "string"] [.s "3", .s "2.5", .s "abc"] =
    .ok [.i 3, .f ⟨25, 1⟩, .s "abc"] := by decide

example : toNative ["int"] [.s "abc"] =
    .error (.valueError "invalid literal for int") := by decide

example : toNative ["reltime"] [.s ""] = .ok [.s ""] := by decide

/-! ### `Query._get_querydata`

Embedding of the query-data cache (report.py lines 77-103).  Columns are
represented by their resolved ids.  Python `None` is `Option.none` and a
Python list is `Option.some`; the truthiness tests of the source (`if
columns:`) are reproduced, so `some []` is falsy.  The remote call is
modelled by counting fetches and recording the parameters of the last
fetch. -/

/-- Resolution of the requested columns at the top of `_get_querydata`:
a truthy `columns` argument is resolved (ids pass through the catalog
unchanged); otherwise a non-`None` `selected_columns` is used; otherwise
the argument is left as it is (`None` or the empty list). -/
def resolveCols (requested selected : Option (List Nat)) : Option (List Nat) :=
  match requested with
  | some l => if l ≠ [] then some l else match selected with
    | some sel => some sel
    | none => some l
  | none => match selected with
    | some sel => some sel
    | none => none

/-- State of a `Query` relevant to the data cache: the constructor-time
`selected_columns`, the `data_selected_columns` cache key, the number of
remote fetches issued so far, and the `params` of the last fetch
(`none` both before any fetch and for a fetch of all columns). -/
structure QueryState where
  selected : Option (List Nat)
  dsc : Option (List Nat)
  fetches : Nat
  lastParams : Option (List Nat)
deriving DecidableEq

/-- Embedding of `Query._get_querydata`: resolve the requested columns,
return immediately when the cache key matches (`changed` is false), and
otherwise fetch — with `params` listing the column ids when the resolved
columns are truthy — and store the new cache key. -/
def getQuerydata (requested : Option (List Nat)) (st : QueryState) : QueryState :=
  let cols := resolveCols requested st.selected
  let changed := st.dsc.isNone || decide (st.dsc ≠ cols)
  if changed then
    let params := match cols with
      | some l => if l ≠ [] then some l else none
      | none => none
    { st with dsc := cols, fetches := st.fetches + 1, lastParams := params }
  else st

example : (getQuerydata (some [1, 2]) ⟨none, none, 0, none⟩).fetches = 1 := by decide

example :
    getQuerydata (some [1, 2]) (getQuerydata (some [1, 2]) ⟨none, none, 0, none⟩) =
      getQuerydata (some [1, 2]) ⟨none, none, 0, none⟩ := by decide

example : (getQuerydata none (getQuerydata none ⟨none, none, 0, none⟩)).fetches = 2 := by
  decide

/-! ### `Report.run` resolution validation

Embedding of report.py lines 207-215: a resolution outside the
enumerated name set is run through `parse_timedelta` and the
`RESOLUTION_MAP` duration table, after which a `ValueError` is raised
unconditionally — the translated name is only interpolated into the
message, never used.  `parse_timedelta` lives in `rvbd.common.timeutils`
(outside the sources at hand), so the check is parameterised over its
behaviour, with a concrete model below. -/

/-- Resolution names accepted by `Report.run`. -/
def validResolutions : List String :=
  ["auto", "1min", "15min", "hour", "6hour", "day", "week", "month"]

/-- Duration table `Report.RESOLUTION_MAP` (seconds to resolution name). -/
def resolutionMap : List (Nat × String) :=
  [(60, "1min"), (900, "15min"), (3600, "hour"), (21600, "6hour"),
   (86400, "day"), (604800, "week")]

/-- Embedding of the resolution validation in `Report.run`.  `parseTd`
models `parse_timedelta`, returning the total seconds or `none` where it
raises.  A name in the accepted set passes through unchanged; everything
else errors: `ValueError` when the duration maps, `KeyError` when the
duration is absent from the table, and the parse failure otherwise. -/
def checkResolution (parseTd : String → Option Nat) (resolution : String) :
    Except PyErr String :=
  if resolution ∈ validResolutions then .ok resolution
  else
    match parseTd resolution with
    | none => .error (.valueError "could not parse timedelta")
    | some secs =>
      match resolutionMap.lookup secs with
      | none => .error .keyError
      | some name =>
        .error (.valueError ("resolution \"" ++ name ++
          "\" invalid must be one of these values: auto, 1min, 15min, hour 6hour, day, week, month"))

/-- Splits a character list at spaces (structurally, so that the kernel
can evaluate it). -/
def splitSpace : List Char → List (List Char)
  | [] => [[]]
  | c :: rest =>
    match splitSpace rest with
    | [] => [[]]
    | w :: ws => if c = ' ' then [] :: w :: ws else (c :: w) :: ws

/-- Splits a string on spaces, dropping empty fields. -/
def spaceFields (s : String) : List String :=
  ((splitSpace s.data).map String.mk).filter (fun p => p ≠ "")

/-- Modelled from the spec: `parse_timedelta` of `rvbd.common.timeutils`
is not among the sources at hand; the spec only records that callers may
pass duration strings such as `"60"` or `"15 minutes"`.  This model
parses a bare digit string as seconds and a `"<digits> <unit>"` pair for
the usual second/minute/hour/day/week unit spellings. -/
def parseTimedelta (s : String) : Option Nat :=
  match spaceFields s with
  | [num] => digitsVal num.data
  | [num, unit] =>
    match digitsVal num.data with
    | none => none
    | some n =>
      if unit ∈ ["s", "sec", "secs", "second", "seconds"] then some n
      else if unit ∈ ["m", "min", "mins", "minute", "minutes"] then some (60 * n)
      else if unit ∈ ["h", "hour", "hours"] then some (3600 * n)
      else if unit ∈ ["d", "day", "days"] then some (86400 * n)
      else if unit ∈ ["w", "week", "weeks"] then some (604800 * n)
      else none
  | _ => none

example : parseTimedelta "60" = some 60 := by decide

example : parseTimedelta "15 minutes" = some 900 := by decide

example : checkResolution parseTimedelta "1min" = .ok "1min" := by decide

example : checkResolution parseTimedelta "60" = .error (.valueError
    ("resolution \"1min\" invalid must be one of these values: " ++
      "auto, 1min, 15min, hour 6hour, day, week, month")) := by decide

/-! ### The time filter default of `Report.run`

Embedding of report.py lines 192-196 and 217-223: an omitted time
filter is replaced by `TimeFilter.parse_range("last 5 min")`, and the
criteria document carries the filter's bounds in absolute seconds. -/

/-- A time filter with both bounds already converted to absolute seconds
(`datetime_to_seconds` of the start and end datetimes). -/
structure TimeFilter where
  start : Int
  stop : Int
deriving DecidableEq

/-- Modelled from the spec: `TimeFilter.parse_range` of
`rvbd/profiler/filters.py` is not among the sources at hand.  On the
range expression `"last 5 min"` it produces the window of the last five
minutes, evaluated at call time: start 300 seconds before now, end
now. -/
def parseRangeLast5Min (now : Int) : TimeFilter :=
  ⟨now - 300, now⟩

/-- Embedding of the `timefilter` defaulting in `Report.run`: `None`
becomes the parsed `"last 5 min"` range, anything else is used as
given. -/
def resolveTimefilter (tf : Option TimeFilter) (now : Int) : TimeFilter :=
  match tf with
  | none => parseRangeLast5Min now
  | some t => t

/-- Time frame of the criteria document built by `Report.run`. -/
structure TimeFrame where
  start : Int
  stop : Int
deriving DecidableEq

/-- Embedding of the `time_frame` construction of `Report.run`: the
resolved filter's bounds in seconds. -/
def runTimeFrame (tf : Option TimeFilter) (now : Int) : TimeFrame :=
  let t := resolveTimefilter tf now
  ⟨t.start, t.stop⟩

/-! ### `Report.status` and `Report.delete`

Embedding of report.py lines 285-302 and 364-369, together with the
attribute layout of `Report.__init__` (lines 148-161).  `__init__` never
assigns `self.id` — the attribute first appears in `run()` — so the
state carries `idAttr : Option (Option Int)`: `none` when the attribute
does not exist (its access raises `AttributeError`), `some none` for
Python `None`, and `some (some n)` for an assigned id. -/

/-- Appliance answer to a status poll. -/
structure StatusD where
  status : String
  percent : Int
  remaining : Int
deriving DecidableEq

/-- Embedding of `Report.status`: accessing the missing `id` attribute
raises; a falsy id (`None` or `0`) returns `None` without contacting the
appliance; otherwise the appliance is queried and the answer cached in
`last_status`.  Returns the method's value paired with the updated
`last_status`. -/
def statusCall (idAttr : Option (Option Int)) (remote : Int → StatusD)
    (lastStatus : Option StatusD) : Except PyErr (Option StatusD × Option StatusD) :=
  match idAttr with
  | none => .error .attributeError
  | some none => .ok (none, lastStatus)
  | some (some i) =>
    if i = 0 then .ok (none, lastStatus)
    else
      let st := remote i
      .ok (some st, some st)

/-- Embedding of `Report.delete`: the body evaluates `self.id` (raising
`AttributeError` when the attribute was never assigned) and issues the
remote delete; only `AttributeError` is swallowed, every other error
propagates.  `remote` models `profiler.api.report.delete`. -/
def deleteCall (idAttr : Option (Option Int))
    (remote : Option Int → Except PyErr Unit) : Except PyErr Unit :=
  match idAttr with
  | none => .ok ()
  | some v =>
    match remote v with
    | .ok _ => .ok ()
    | .error .attributeError => .ok ()
    | .error e => .error e

/-! ### `Report.wait_for_complete`

Embedding of report.py lines 257-283.  The successive readings of the
clock are abstracted as the sequence `elapsed i` of values
`time.clock() - start` observed at the `i`-th loop test, and the
successive appliance answers as `polls i`.  The loop is given fuel; the
theorems assume the clock eventually exceeds the timeout within the
fuel, which makes the result independent of it. -/

/-- Outcome of `wait_for_complete`: the returned boolean and, when the
wait timed out, the percent figure of the emitted warning. -/
structure WfcOut where
  complete : Bool
  warnPercent : Option Int
deriving DecidableEq

/-- Fuel-indexed embedding of the polling loop of `wait_for_complete`,
carrying the `percent` tracker (initialised to 100 by the source). -/
def wfcAux (timeout : ℚ) : (ℕ → ℚ) → (ℕ → StatusD) → Int → ℕ → Option WfcOut
  | _, _, percent, 0 =>
    let _ := percent
    none
  | elapsed, polls, percent, fuel + 1 =>
    if elapsed 0 < timeout then
      let s := polls 0
      if s.status = "completed" then some ⟨true, none⟩
      else
        wfcAux timeout (fun n => elapsed (n + 1)) (fun n => polls (n + 1))
          (if s.percent ≠ percent then s.percent else percent) fuel
    else some ⟨false, some (if percent ≠ 0 then percent else 0)⟩

/-- Embedding of `Report.wait_for_complete` (the `percent` tracker
starts at 100). -/
def waitForComplete (timeout : ℚ) (elapsed : ℕ → ℚ) (polls : ℕ → StatusD)
    (fuel : ℕ) : Option WfcOut :=
  wfcAux timeout elapsed polls 100 fuel

/-! ### `WANSummaryReport.run`

Embedding of the merge step of `WANSummaryReport.run` (report.py lines
588-628).  The two sub-reports' data sets arrive as lists of rows
aligned positionally with `self.columns`; building the data frames with
`set_index` moves the is-key columns into the index, so the frames'
remaining columns are exactly the non-key column keys.  The directional
flags are computed from those remaining columns with `startswith`, the
selected columns are renamed with Python `str.replace` (which substitutes
every occurrence, not only a prefix), and the two reduced frames are
inner-joined on the key tuple, the LAN columns first. -/

/-- A resolved column as the merge step sees it: its key (name) and its
is-key flag from the catalog. -/
structure Col where
  key : String
  iskey : Bool
deriving DecidableEq

/-- Names of the is-key columns, in column order — the data frames'
index after `set_index`. -/
def keyNames (cols : List Col) : List String :=
  (cols.filter (fun c => c.iskey)).map (fun c => c.key)

/-- Names of the non-key columns, in column order — what `df.keys()`
returns after `set_index`. -/
def valKeys (cols : List Col) : List String :=
  (cols.filter (fun c => !c.iskey)).map (fun c => c.key)

/-- Key tuple of one data row (the cells in is-key positions). -/
def rowKey (cols : List Col) (row : List String) : List String :=
  ((cols.zip row).filter (fun p => p.1.iskey)).map (fun p => p.2)

/-- Value cells of one data row (the cells in non-key positions). -/
def rowVals (cols : List Col) (row : List String) : List String :=
  ((cols.zip row).filter (fun p => !p.1.iskey)).map (fun p => p.2)

/-- The `in_flags` classification: column name starts with `in_`. -/
def inFlag (c : String) : Bool := pyStartsWith c "in_"

/-- The `out_flags` classification: column name starts with `out_`. -/
def outFlag (c : String) : Bool := pyStartsWith c "out_"

/-- The `key_flags` classification: neither `in_`- nor `out_`-prefixed. -/
def keyFlag (c : String) : Bool := !inFlag c && !outFlag c

/-- Projection of a row's value cells onto the flagged columns
(the `.ix[:, flags]` column selection). -/
def projectVals (names : List String) (flags : String → Bool)
    (vals : List String) : List String :=
  ((names.zip vals).filter (fun p => flags p.1)).map (fun p => p.2)

/-- One reduced data frame: the flagged value columns renamed with
Python `replace`, and every row reduced to its key tuple and flagged
cells.  Returns (renamed column names, rows). -/
def reduceTable (cols : List Col) (data : List (List String))
    (flags : String → Bool) (pat rep : String) :
    List String × List (List String × List String) :=
  (((valKeys cols).filter flags).map (fun n => pyReplace n pat rep),
   data.map (fun r => (rowKey cols r, projectVals (valKeys cols) flags (rowVals cols r))))

/-- Inner join of the two reduced frames on the key tuple (pandas
`join(..., how='inner')`): left-frame row order, each LAN row paired
with every WAN row carrying the same key, LAN cells first. -/
def innerJoin (lan wan : List (List String × List String)) :
    List (List String × List String) :=
  lan.flatMap (fun lr => (wan.filter (fun wr => wr.1 = lr.1)).map
    (fun wr => (lr.1, lr.2 ++ wr.2)))

/-- Result of a WAN-merge run: the index (key) names, the kept and
renamed LAN and WAN column names, the two reduced frames
(`self.lan_columns` / `self.wan_columns`), the joined rows
(`self.table`) and the legend (`self._legend`). -/
structure WanTable where
  index : List String
  lanCols : List String
  wanCols : List String
  lanTable : List (List String × List String)
  wanTable : List (List String × List String)
  rows : List (List String × List String)
  legend : List String
deriving DecidableEq

/-- Embedding of the merge step of `WANSummaryReport.run`: direction
dispatch, directional column selection and renaming, inner join and
legend construction.  A direction other than `inbound`/`outbound`
raises `RvbdException` before any table is produced. -/
def wanMergeRun (cols : List Col) (lanData wanData : List (List String))
    (direction : String) : Except PyErr WanTable :=
  let kn := keyNames cols
  if direction = "inbound" then
    let lan := reduceTable cols lanData (fun c => keyFlag c || outFlag c) "out_" "LAN_"
    let wan := reduceTable cols wanData (fun c => inFlag c) "in_" "WAN_"
    .ok ⟨kn, lan.1, wan.1, lan.2, wan.2, innerJoin lan.2 wan.2, kn ++ (lan.1 ++ wan.1)⟩
  else if direction = "outbound" then
    let lan := reduceTable cols lanData (fun c => keyFlag c || inFlag c) "in_" "LAN_"
    let wan := reduceTable cols wanData (fun c => outFlag c) "out_" "WAN_"
    .ok ⟨kn, lan.1, wan.1, lan.2, wan.2, innerJoin lan.2 wan.2, kn ++ (lan.1 ++ wan.1)⟩
  else .error (.rvbdError ("Invalid direction " ++ direction ++ " for WANSummaryReport"))

/-- Modelled from the spec's words for the first directional rule of the
WAN merge: from the LAN data set keep (besides the key columns, which
live in the index) exactly the `out_`-prefixed columns, renaming the
`out_` prefix to `LAN_`.  Used to compare the claimed column set with
the one the code produces. -/
def claimedLanColsInbound (cols : List Col) : List String :=
  (valKeys cols).filterMap (fun c =>
    if outFlag c then some (String.mk ("LAN_".data ++ c.data.drop "out_".data.length))
    else none)

example : pyReplace "timeout_pct" "out_" "LAN_" = "timeLAN_pct" := by decide

example : pyReplace "in_login_time" "in_" "WAN_" = "WAN_logWAN_time" := by decide

example :
    wanMergeRun [⟨"host", true⟩, ⟨"in_bytes", false⟩, ⟨"out_bytes", false⟩]
      [["X", "1", "2"], ["Y", "3", "4"]] [["Y", "5", "6"]] "inbound" =
    .ok ⟨["host"], ["LAN_bytes"], ["WAN_bytes"],
      [(["X"], ["2"]), (["Y"], ["4"])], [(["Y"], ["5"])],
      [(["Y"], ["4", "5"])], ["host", "LAN_bytes", "WAN_bytes"]⟩ := by decide

/-! ## Theorems about the claims -/

/-- Claim C3: a resolution name in
{auto, 1min, 15min, hour, 6hour, day, week, month} is accepted by
`Report.run` unchanged, whatever `parse_timedelta` does; a value outside
the set never succeeds (it is never silently translated to a resolution
name); and the numeric-duration strings `"60"` and `"15 minutes"` in
particular fail with the `ValueError` (`InvalidArgument`) carrying the
translated name in its message only. -/
theorem c3_resolution_validation (pt : String → Option Nat) (rOk rBad : String) :
    (rOk ∈ validResolutions → checkResolution pt rOk = .ok rOk) ∧
    (rBad ∉ validResolutions → ∀ name, checkResolution pt rBad ≠ .ok name) ∧
    checkResolution parseTimedelta "60" = .error (.valueError
      ("resolution \"1min\" invalid must be one of these values: " ++
        "auto, 1min, 15min, hour 6hour, day, week, month")) ∧
    checkResolution parseTimedelta "15 minutes" = .error (.valueError
      ("resolution \"15min\" invalid must be one of these values: " ++
        "auto, 1min, 15min, hour 6hour, day, week, month")) := by
  refine ⟨?_, ?_, by decide, by decide⟩
  · intro h
    simp [checkResolution, h]
  · intro h name
    simp only [checkResolution, if_neg h]
    cases pt rBad with
    | none => simp
    | some secs =>
      rcases hl : List.lookup secs resolutionMap with _ | nm
      · simp [hl]
      · simp [hl]

/-- Claim C3 witness: the validation at the concrete inputs `"auto"`
(accepted unchanged) and `"sideways"` (never successful). -/
theorem c3_resolution_validation_witness :
    checkResolution parseTimedelta "auto" = .ok "auto" ∧
    ∀ name, checkResolution parseTimedelta "sideways" ≠ .ok name :=
  ⟨(c3_resolution_validation parseTimedelta "auto" "sideways").1 (by decide),
   (c3_resolution_validation parseTimedelta "auto" "sideways").2.1 (by decide)⟩

/-- Claim C4 counterexample: the claim says a failed coercion leaves the
value unchanged without raising *in every typed column including
int-typed ones*, but the `int` branch of `_to_native` calls `int(x)`
outside any `try`, so the non-numeric value `"abc"` in an `int` column
raises `ValueError` instead of passing through. -/
theorem c4_coercion_counterexample :
    toNative ["int"] [.s "abc"] = .error (.valueError "invalid literal for int") ∧
    toNative ["int"] [.s "abc"] ≠ .ok [.s "abc"] :=
  ⟨by decide, by decide⟩

/-- Claim C4 as amended: `int` columns coerce to an integer but a failed
integer coercion raises (the error propagates); `float` and `reltime`
columns coerce to a floating value and a failed coercion leaves the
value unchanged without raising; columns of any other type (in
particular `string`) never raise and leave the value untouched; and the
legend `[int, float, string]` coerces the row `["3", "2.5", "abc"]` to
`[3, 2.5, "abc"]`. -/
theorem c4_coercion_amended (s : String) (v : Val)
    (hI : parseIntStr s = none) (hF : parseFloatStr s = none) :
    toNative ["int"] [.s s] = .error (.valueError "invalid literal for int") ∧
    toNative ["float"] [.s s] = .ok [.s s] ∧
    toNative ["reltime"] [.s s] = .ok [.s s] ∧
    (∀ t x, t ≠ "int" → ∃ y, toNativeCell t x = .ok y) ∧
    toNative ["string"] [v] = .ok [v] ∧
    toNative ["int", "float", "string"] [.s "3", .s "2.5", .s "abc"] =
      .ok [.i 3, .f ⟨25, 1⟩, .s "abc"] := by
  have hrel : pyInStr "reltime" "reltime" = true := by decide
  have hflt : pyInStr "float" "reltime" = false := by decide
  have hstr : pyInStr "string" "reltime" = false := by decide
  refine ⟨?_, ?_, ?_, ?_, ?_, by decide⟩
  · simp [toNative, toNativeCell, pythonInt, hI]
  · simp [toNative, toNativeCell, pythonFloat, hF, hflt]
  · simp [toNative, toNativeCell, pythonFloat, hF, hrel]
  · intro t x h
    simp only [toNativeCell, if_neg h]
    by_cases hf : (t = "float" || pyInStr t "reltime") = true
    · rw [if_pos hf]
      cases pythonFloat x with
      | none => exact ⟨x, rfl⟩
      | some q => exact ⟨.f q, rfl⟩
    · rw [if_neg hf]
      exact ⟨x, rfl⟩
  · simp [toNative, toNativeCell, hstr]

/-- Claim C4 witness: the amended behaviour at the concrete failing
value `"abc"` and the string value `"zz"`. -/
theorem c4_coercion_amended_witness :
    toNative ["int"] [.s "abc"] = .error (.valueError "invalid literal for int") ∧
    toNative ["float"] [.s "abc"] = .ok [.s "abc"] ∧
    toNative ["reltime"] [.s "abc"] = .ok [.s "abc"] :=
  ⟨(c4_coercion_amended "abc" (.s "zz") (by decide) (by decide)).1,
   (c4_coercion_amended "abc" (.s "zz") (by decide) (by decide)).2.1,
   (c4_coercion_amended "abc" (.s "zz") (by decide) (by decide)).2.2.1⟩

/-- Claim C5 counterexample: with no constructor-time selection and the
empty request (meaning all available columns), the claim predicts that
the second identical request returns from cache after exactly one
fetch; but `data_selected_columns` is then set to `None`, which is
indistinguishable from the never-fetched sentinel, so the second call
fetches again — two fetches, not one. -/
theorem c5_cache_counterexample :
    (getQuerydata none (getQuerydata none ⟨none, none, 0, none⟩)).fetches = 2 ∧
    ¬(getQuerydata none (getQuerydata none ⟨none, none, 0, none⟩)).fetches = 1 :=
  ⟨by decide, by decide⟩

/-- On a query state that has never fetched (`data_selected_columns`
still `None`), `_get_querydata` always fetches, storing the resolved
columns as the new cache key. -/
theorem getQuerydata_fresh (r s : Option (List Nat)) (n : Nat) (p : Option (List Nat)) :
    getQuerydata r ⟨s, none, n, p⟩ =
      ⟨s, resolveCols r s, n + 1,
       match resolveCols r s with
       | some l => if l ≠ [] then some l else none
       | none => none⟩ :=
  rfl

/-- When the cache key is set and matches the resolved columns,
`_get_querydata` returns without fetching: the state is unchanged. -/
theorem getQuerydata_cached (r : Option (List Nat)) (st : QueryState)
    (h1 : st.dsc ≠ none) (h2 : resolveCols r st.selected = st.dsc) :
    getQuerydata r st = st := by
  rcases st with ⟨s, dsc, f, p⟩
  obtain ⟨d, hd⟩ := Option.ne_none_iff_exists'.mp h1
  subst hd
  simp [getQuerydata, h2]

/-- When the cache key is unset or differs from the resolved columns,
`_get_querydata` fetches and updates the key. -/
theorem getQuerydata_miss (r : Option (List Nat)) (st : QueryState)
    (h : st.dsc = none ∨ st.dsc ≠ resolveCols r st.selected) :
    getQuerydata r st =
      ⟨st.selected, resolveCols r st.selected, st.fetches + 1,
       match resolveCols r st.selected with
       | some l => if l ≠ [] then some l else none
       | none => none⟩ := by
  rcases st with ⟨s, dsc, f, p⟩
  rcases h with h | h
  · subst h
    rfl
  · cases dsc with
    | none => rfl
    | some d => simp [getQuerydata, h]

/-- Claim C5 as amended: the first request on a fresh query always
fetches and stores the resolved selection as the cache key; when the
resolved selection is not `None`, an identical second request returns
from cache with no further fetch (the state is unchanged); a request
whose resolved selection differs fetches a second time and updates the
cache key; but when both the request and the constructor-time selection
are `None` (the all-available-columns case), the cache key stays `None`
and every call fetches again. -/
theorem c5_cache_amended (req req2 reqE : Option (List Nat))
    (sel selE : Option (List Nat))
    (hsome : resolveCols req sel ≠ none)
    (hdiff : resolveCols req2 sel ≠ resolveCols req sel)
    (hnone : resolveCols reqE selE = none) :
    (getQuerydata req ⟨sel, none, 0, none⟩).fetches = 1 ∧
    (getQuerydata req ⟨sel, none, 0, none⟩).dsc = resolveCols req sel ∧
    getQuerydata req (getQuerydata req ⟨sel, none, 0, none⟩) =
      getQuerydata req ⟨sel, none, 0, none⟩ ∧
    (getQuerydata req2 (getQuerydata req ⟨sel, none, 0, none⟩)).fetches = 2 ∧
    (getQuerydata req2 (getQuerydata req ⟨sel, none, 0, none⟩)).dsc =
      resolveCols req2 sel ∧
    (getQuerydata reqE (getQuerydata reqE ⟨selE, none, 0, none⟩)).fetches = 2 := by
  refine ⟨?_, ?_, ?_, ?_, ?_, ?_⟩
  · rw [getQuerydata_fresh]
  · rw [getQuerydata_fresh]
  · rw [getQuerydata_fresh]
    exact getQuerydata_cached req _ hsome rfl
  · rw [getQuerydata_fresh, getQuerydata_miss req2 _ (Or.inr (fun hh => hdiff hh.symm))]
  · rw [getQuerydata_fresh, getQuerydata_miss req2 _ (Or.inr (fun hh => hdiff hh.symm))]
  · rw [getQuerydata_fresh, getQuerydata_miss reqE _ (Or.inl hnone)]

/-- Claim C5 witness: the amended cache behaviour at the concrete
selections `[1]` (cached on repeat), `[2]` (re-fetched on change) and
the empty selection (re-fetched although identical). -/
theorem c5_cache_amended_witness :
    (getQuerydata (some [1]) ⟨none, none, 0, none⟩).fetches = 1 ∧
    getQuerydata (some [1]) (getQuerydata (some [1]) ⟨none, none, 0, none⟩) =
      getQuerydata (some [1]) ⟨none, none, 0, none⟩ ∧
    (getQuerydata (some [2]) (getQuerydata (some [1]) ⟨none, none, 0, none⟩)).fetches = 2 ∧
    (getQuerydata none (getQuerydata none ⟨none, none, 0, none⟩)).fetches = 2 :=
  ⟨(c5_cache_amended (some [1]) (some [2]) none none none (by decide) (by decide)
      (by decide)).1,
   (c5_cache_amended (some [1]) (some [2]) none none none (by decide) (by decide)
      (by decide)).2.2.1,
   (c5_cache_amended (some [1]) (some [2]) none none none (by decide) (by decide)
      (by decide)).2.2.2.1,
   (c5_cache_amended (some [1]) (some [2]) none none none (by decide) (by decide)
      (by decide)).2.2.2.2.2⟩

/-- Claim C7: `Report.__init__` never assigns `self.id`, so on a Report
on which `run` was never called, `status()` raises `AttributeError`
instead of returning `None` as both the claim and the method's own
docstring state (the code contradicts its documentation); on a
submitted Report (a truthy id) it queries the appliance and caches the
answer in `last_status`. -/
theorem c7_status_unrun_raises (remote : Int → StatusD) (last : Option StatusD) :
    statusCall none remote last = .error .attributeError ∧
    statusCall (some (some 7)) remote last = .ok (some (remote 7), some (remote 7)) :=
  ⟨rfl, rfl⟩

/-- Claim C8 counterexample: a Report whose `id` attribute exists but is
`None` (assigned at the top of `run()`; it also survives unchanged after
a completed `delete()`) has, in the claim's words, "no assigned id", yet
`delete()` still issues the remote call, and a remote failure other
than `AttributeError` — here a `ValueError` — propagates instead of the
claimed silent no-op success. -/
theorem c8_delete_counterexample :
    deleteCall (some none) (fun _ => .error (.valueError "no such report")) =
      .error (.valueError "no such report") ∧
    deleteCall (some none) (fun _ => .error (.valueError "no such report")) ≠
      .ok () :=
  ⟨rfl, fun h => Except.noConfusion h⟩

/-- Claim C8 as amended: `delete()` on a never-submitted Report (the
`id` attribute missing) succeeds as a no-op, because evaluating
`self.id` raises `AttributeError`, which is the one exception the
method swallows; when the attribute exists the remote delete is always
issued — `delete()` does not clear the id, so deleting an
already-deleted Report re-issues the call — and a remote
`AttributeError` is likewise swallowed while every other remote failure
propagates unchanged. -/
theorem c8_delete_amended (remote : Option Int → Except PyErr Unit)
    (v : Option Int) (e : PyErr)
    (herr : remote v = .error e) (hne : e ≠ .attributeError) :
    deleteCall none remote = .ok () ∧
    deleteCall (some v) remote = .error e ∧
    (∀ remote2 : Option Int → Except PyErr Unit, remote2 v = .error .attributeError →
      deleteCall (some v) remote2 = .ok ()) ∧
    (∀ remote3 : Option Int → Except PyErr Unit, remote3 v = .ok () →
      deleteCall (some v) remote3 = .ok ()) := by
  refine ⟨rfl, ?_, ?_, ?_⟩
  · cases e with
    | attributeError => exact absurd rfl hne
    | indexError => simp only [deleteCall, herr]
    | keyError => simp only [deleteCall, herr]
    | valueError m => simp only [deleteCall, herr]
    | rvbdError m => simp only [deleteCall, herr]
  · intro remote2 h2
    simp only [deleteCall, h2]
  · intro remote3 h3
    simp only [deleteCall, h3]

/-- Claim C8 witness: the amended delete behaviour with a concrete
remote that fails with `ValueError` on every id. -/
theorem c8_delete_amended_witness :
    deleteCall none (fun _ => .error (.valueError "boom")) = .ok () ∧
    deleteCall (some (some 3)) (fun _ => .error (.valueError "boom")) =
      .error (.valueError "boom") :=
  ⟨(c8_delete_amended (fun _ => .error (.valueError "boom")) (some 3)
      (.valueError "boom") rfl (by decide)).1,
   (c8_delete_amended (fun _ => .error (.valueError "boom")) (some 3)
      (.valueError "boom") rfl (by decide)).2.1⟩

/-- Claim C9: a WAN-merge run whose direction is neither `inbound` nor
`outbound` fails with the `RvbdException` naming the invalid direction,
and no joined table is produced (the run returns the error instead of a
table). -/
theorem c9_invalid_direction (cols : List Col) (lanData wanData : List (List String))
    (d : String) (h1 : d ≠ "inbound") (h2 : d ≠ "outbound") :
    wanMergeRun cols lanData wanData d =
      .error (.rvbdError ("Invalid direction " ++ d ++ " for WANSummaryReport")) := by
  simp [wanMergeRun, h1, h2]

/-- Claim C9 witness: the direction `"sideways"` fails with the error
naming it. -/
theorem c9_invalid_direction_witness :
    wanMergeRun [] [] [] "sideways" =
      .error (.rvbdError "Invalid direction sideways for WANSummaryReport") :=
  c9_invalid_direction [] [] [] "sideways" (by decide) (by decide)

/-- A character list cannot carry both the `in_` and the `out_` prefix. -/
theorem in_out_exclusive (l : List Char) :
    List.isPrefixOf "in_".data l = false ∨ List.isPrefixOf "out_".data l = false := by
  cases l with
  | nil => left; rfl
  | cons a rest =>
    by_cases ha : a = 'i'
    · right
      subst ha
      rfl
    · left
      have hne : ('i' == a) = false := by
        simp only [beq_eq_false_iff_ne, ne_eq]
        exact fun hh => ha hh.symm
      show List.isPrefixOf ('i' :: 'n' :: '_' :: []) (a :: rest) = false
      simp [List.isPrefixOf, hne]

/-- The `inbound` LAN selection `key_flags or out_flags` keeps exactly
the columns that are not `in_`-prefixed. -/
theorem keyFlag_or_outFlag (c : String) : (keyFlag c || outFlag c) = !inFlag c := by
  simp only [keyFlag, inFlag, outFlag, pyStartsWith]
  rcases in_out_exclusive c.data with h | h
  · rw [h]
    cases ho : List.isPrefixOf "out_".data c.data <;> simp
  · rw [h]
    cases hi : List.isPrefixOf "in_".data c.data <;> simp

/-- The `outbound` LAN selection `key_flags or in_flags` keeps exactly
the columns that are not `out_`-prefixed. -/
theorem keyFlag_or_inFlag (c : String) : (keyFlag c || inFlag c) = !outFlag c := by
  simp only [keyFlag, inFlag, outFlag, pyStartsWith]
  rcases in_out_exclusive c.data with h | h
  · rw [h]
    cases ho : List.isPrefixOf "out_".data c.data <;> simp
  · rw [h]
    cases hi : List.isPrefixOf "in_".data c.data <;> simp

/-- Claim C1 counterexample: with the columns
`[interface (key), timeout_pct, in_bytes, out_bytes]` and direction
`inbound`, the claim predicts that the LAN side keeps exactly the key
columns plus `out_bytes` renamed to `LAN_bytes`; the code also keeps the
non-key, non-directional column `timeout_pct` and, renaming with
Python's substring `replace`, turns it into `timeLAN_pct`. -/
theorem c1_wan_selection_counterexample :
    (wanMergeRun [⟨"interface", true⟩, ⟨"timeout_pct", false⟩,
        ⟨"in_bytes", false⟩, ⟨"out_bytes", false⟩] [] [] "inbound").map
      WanTable.lanCols = .ok ["timeLAN_pct", "LAN_bytes"] ∧
    claimedLanColsInbound [⟨"interface", true⟩, ⟨"timeout_pct", false⟩,
        ⟨"in_bytes", false⟩, ⟨"out_bytes", false⟩] = ["LAN_bytes"] ∧
    (["timeLAN_pct", "LAN_bytes"] : List String) ≠ ["LAN_bytes"] :=
  ⟨by decide, by decide, by decide⟩

/-- The table the inbound branch of the merge step produces. -/
def inboundResult (cols : List Col) (lanData wanData : List (List String)) : WanTable :=
  let lan := reduceTable cols lanData (fun c => keyFlag c || outFlag c) "out_" "LAN_"
  let wan := reduceTable cols wanData (fun c => inFlag c) "in_" "WAN_"
  ⟨keyNames cols, lan.1, wan.1, lan.2, wan.2, innerJoin lan.2 wan.2,
   keyNames cols ++ (lan.1 ++ wan.1)⟩

/-- The table the outbound branch of the merge step produces. -/
def outboundResult (cols : List Col) (lanData wanData : List (List String)) : WanTable :=
  let lan := reduceTable cols lanData (fun c => keyFlag c || inFlag c) "in_" "LAN_"
  let wan := reduceTable cols wanData (fun c => outFlag c) "out_" "WAN_"
  ⟨keyNames cols, lan.1, wan.1, lan.2, wan.2, innerJoin lan.2 wan.2,
   keyNames cols ++ (lan.1 ++ wan.1)⟩

/-- An inbound run succeeds with the inbound table. -/
theorem wanMergeRun_inbound (cols : List Col) (lanData wanData : List (List String)) :
    wanMergeRun cols lanData wanData "inbound" =
      .ok (inboundResult cols lanData wanData) :=
  rfl

/-- An outbound run succeeds with the outbound table. -/
theorem wanMergeRun_outbound (cols : List Col) (lanData wanData : List (List String)) :
    wanMergeRun cols lanData wanData "outbound" =
      .ok (outboundResult cols lanData wanData) := by
  simp [wanMergeRun, outboundResult]

/-- Claim C1 as amended: for direction `inbound`, the kept LAN value
columns are exactly the non-`in_`-prefixed ones (the key-classified
non-directional columns as well as the `out_`-prefixed ones), each
renamed by replacing every occurrence of the substring `out_` with
`LAN_`; the kept WAN value columns are exactly the `in_`-prefixed ones
with every `in_` occurrence replaced by `WAN_`; the is-key columns form
the index on both sides and each data row survives reduced to its key
tuple and kept cells.  For `outbound` the same holds with the roles of
`in_` and `out_` swapped. -/
theorem c1_wan_selection_amended (cols : List Col) (lanData wanData : List (List String)) :
    (∃ t, wanMergeRun cols lanData wanData "inbound" = .ok t ∧
      (∀ n, n ∈ t.lanCols ↔ ∃ c, c ∈ valKeys cols ∧ inFlag c = false ∧
        n = pyReplace c "out_" "LAN_") ∧
      (∀ n, n ∈ t.wanCols ↔ ∃ c, c ∈ valKeys cols ∧ inFlag c = true ∧
        n = pyReplace c "in_" "WAN_") ∧
      t.index = keyNames cols ∧
      t.lanTable = lanData.map (fun r => (rowKey cols r,
        projectVals (valKeys cols) (fun c => keyFlag c || outFlag c) (rowVals cols r))) ∧
      t.wanTable = wanData.map (fun r => (rowKey cols r,
        projectVals (valKeys cols) (fun c => inFlag c) (rowVals cols r)))) ∧
    (∃ t, wanMergeRun cols lanData wanData "outbound" = .ok t ∧
      (∀ n, n ∈ t.lanCols ↔ ∃ c, c ∈ valKeys cols ∧ outFlag c = false ∧
        n = pyReplace c "in_" "LAN_") ∧
      (∀ n, n ∈ t.wanCols ↔ ∃ c, c ∈ valKeys cols ∧ outFlag c = true ∧
        n = pyReplace c "out_" "WAN_")) := by
  constructor
  · refine ⟨inboundResult cols lanData wanData,
      wanMergeRun_inbound cols lanData wanData, ?_, ?_, rfl, rfl, rfl⟩
    · intro n
      dsimp only [inboundResult, reduceTable]
      simp only [List.mem_map, List.mem_filter]
      constructor
      · rintro ⟨c, ⟨hc, hflag⟩, rfl⟩
        refine ⟨c, hc, ?_, rfl⟩
        have hkey := keyFlag_or_outFlag c
        rw [hflag] at hkey
        cases hin : inFlag c with
        | false => rfl
        | true => rw [hin] at hkey; exact absurd hkey (by decide)
      · rintro ⟨c, hc, hin, rfl⟩
        exact ⟨c, ⟨hc, by rw [keyFlag_or_outFlag, hin]; rfl⟩, rfl⟩
    · intro n
      dsimp only [inboundResult, reduceTable]
      simp only [List.mem_map, List.mem_filter]
      constructor
      · rintro ⟨c, ⟨hc, hflag⟩, rfl⟩
        exact ⟨c, hc, hflag, rfl⟩
      · rintro ⟨c, hc, hin, rfl⟩
        exact ⟨c, ⟨hc, hin⟩, rfl⟩
  · refine ⟨outboundResult cols lanData wanData,
      wanMergeRun_outbound cols lanData wanData, ?_, ?_⟩
    · intro n
      dsimp only [outboundResult, reduceTable]
      simp only [List.mem_map, List.mem_filter]
      constructor
      · rintro ⟨c, ⟨hc, hflag⟩, rfl⟩
        refine ⟨c, hc, ?_, rfl⟩
        have hkey := keyFlag_or_inFlag c
        rw [hflag] at hkey
        cases hout : outFlag c with
        | false => rfl
        | true => rw [hout] at hkey; exact absurd hkey (by decide)
      · rintro ⟨c, hc, hout, rfl⟩
        exact ⟨c, ⟨hc, by rw [keyFlag_or_inFlag, hout]; rfl⟩, rfl⟩
    · intro n
      dsimp only [outboundResult, reduceTable]
      simp only [List.mem_map, List.mem_filter]
      constructor
      · rintro ⟨c, ⟨hc, hflag⟩, rfl⟩
        exact ⟨c, hc, hflag, rfl⟩
      · rintro ⟨c, hc, hout, rfl⟩
        exact ⟨c, ⟨hc, hout⟩, rfl⟩

/-- Membership in the inner join: a row with key `k` and cells `v` is in
the join exactly when `v` splits into LAN cells and WAN cells carried by
rows with key `k` on the respective sides. -/
theorem mem_innerJoin (lan wan : List (List String × List String))
    (k v : List String) :
    (k, v) ∈ innerJoin lan wan ↔
      ∃ lv, (k, lv) ∈ lan ∧ ∃ wv, (k, wv) ∈ wan ∧ v = lv ++ wv := by
  unfold innerJoin
  rw [List.mem_flatMap]
  constructor
  · rintro ⟨lr, hlr, hmem⟩
    rw [List.mem_map] at hmem
    obtain ⟨wr, hwr, heq⟩ := hmem
    rw [List.mem_filter] at hwr
    obtain ⟨hwmem, hkeyb⟩ := hwr
    have hkey : wr.1 = lr.1 := of_decide_eq_true hkeyb
    injection heq with h1 h2
    subst h1
    subst h2
    refine ⟨lr.2, hlr, wr.2, ?_, rfl⟩
    rw [← hkey]
    exact hwmem
  · rintro ⟨lv, hl, wv, hw, rfl⟩
    refine ⟨(k, lv), hl, ?_⟩
    rw [List.mem_map]
    refine ⟨(k, wv), ?_, rfl⟩
    rw [List.mem_filter]
    exact ⟨hw, by simp⟩

/-- The reduced frames keep exactly the key tuples of the original data
rows (the reduction drops columns, never rows). -/
theorem reduceTable_keys (cols : List Col) (data : List (List String))
    (flags : String → Bool) (pat rep : String) (k : List String) :
    (∃ v, (k, v) ∈ (reduceTable cols data flags pat rep).2) ↔
      ∃ r, r ∈ data ∧ rowKey cols r = k := by
  unfold reduceTable
  simp only [List.mem_map]
  constructor
  · rintro ⟨v, r, hr, heq⟩
    injection heq with h1 h2
    exact ⟨r, hr, h1⟩
  · rintro ⟨r, hr, hk⟩
    exact ⟨projectVals (valKeys cols) flags (rowVals cols r), r, hr, by rw [hk]⟩

/-- Claim C2: for both directions the final table is the inner join of
the two reduced frames on the key tuple — a row's key appears in the
result exactly when a LAN data row and a WAN data row both carry it,
the joined cells being the kept LAN cells followed by the kept WAN
cells — and the legend is the ordered key-column names followed by the
LAN and WAN value columns. -/
theorem c2_inner_join (cols : List Col) (lanData wanData : List (List String)) :
    (∃ t, wanMergeRun cols lanData wanData "inbound" = .ok t ∧
      t.index = keyNames cols ∧
      t.legend = t.index ++ (t.lanCols ++ t.wanCols) ∧
      t.rows = innerJoin t.lanTable t.wanTable ∧
      (∀ k v, (k, v) ∈ t.rows ↔
        ∃ lv, (k, lv) ∈ t.lanTable ∧ ∃ wv, (k, wv) ∈ t.wanTable ∧ v = lv ++ wv) ∧
      (∀ k, (∃ v, (k, v) ∈ t.rows) ↔
        ((∃ r, r ∈ lanData ∧ rowKey cols r = k) ∧
         (∃ r, r ∈ wanData ∧ rowKey cols r = k)))) ∧
    (∃ t, wanMergeRun cols lanData wanData "outbound" = .ok t ∧
      t.index = keyNames cols ∧
      t.legend = t.index ++ (t.lanCols ++ t.wanCols) ∧
      t.rows = innerJoin t.lanTable t.wanTable ∧
      (∀ k, (∃ v, (k, v) ∈ t.rows) ↔
        ((∃ r, r ∈ lanData ∧ rowKey cols r = k) ∧
         (∃ r, r ∈ wanData ∧ rowKey cols r = k)))) := by
  constructor
  · refine ⟨inboundResult cols lanData wanData,
      wanMergeRun_inbound cols lanData wanData, rfl, rfl, rfl,
      fun k v => mem_innerJoin _ _ k v, fun k => ?_⟩
    constructor
    · rintro ⟨v, hv⟩
      dsimp only [inboundResult, outboundResult] at hv
      rw [mem_innerJoin] at hv
      obtain ⟨lv, hl, wv, hw, _⟩ := hv
      exact ⟨(reduceTable_keys cols lanData _ _ _ k).mp ⟨lv, hl⟩,
        (reduceTable_keys cols wanData _ _ _ k).mp ⟨wv, hw⟩⟩
    · rintro ⟨h1, h2⟩
      obtain ⟨lv, hl⟩ := (reduceTable_keys cols lanData
        (fun c => keyFlag c || outFlag c) "out_" "LAN_" k).mpr h1
      obtain ⟨wv, hw⟩ := (reduceTable_keys cols wanData
        (fun c => inFlag c) "in_" "WAN_" k).mpr h2
      exact ⟨lv ++ wv, (mem_innerJoin _ _ k _).mpr ⟨lv, hl, wv, hw, rfl⟩⟩
  · refine ⟨outboundResult cols lanData wanData,
      wanMergeRun_outbound cols lanData wanData, rfl, rfl, rfl, fun k => ?_⟩
    constructor
    · rintro ⟨v, hv⟩
      dsimp only [inboundResult, outboundResult] at hv
      rw [mem_innerJoin] at hv
      obtain ⟨lv, hl, wv, hw, _⟩ := hv
      exact ⟨(reduceTable_keys cols lanData _ _ _ k).mp ⟨lv, hl⟩,
        (reduceTable_keys cols wanData _ _ _ k).mp ⟨wv, hw⟩⟩
    · rintro ⟨h1, h2⟩
      obtain ⟨lv, hl⟩ := (reduceTable_keys cols lanData
        (fun c => keyFlag c || inFlag c) "in_" "LAN_" k).mpr h1
      obtain ⟨wv, hw⟩ := (reduceTable_keys cols wanData
        (fun c => outFlag c) "out_" "WAN_" k).mpr h2
      exact ⟨lv ++ wv, (mem_innerJoin _ _ k _).mpr ⟨lv, hl, wv, hw, rfl⟩⟩

/-- Soundness of the polling loop: whenever some clock reading within
the fuel already exceeds the timeout, the loop returns, it returns
`true` exactly when a poll observes `completed` with every clock test up
to and including that poll passing, and on `false` it carries a warning
percent. -/
theorem wfcAux_spec (timeout : ℚ) :
    ∀ (fuel : ℕ) (elapsed : ℕ → ℚ) (polls : ℕ → StatusD) (percent : Int),
      (∃ N, N < fuel ∧ ¬ elapsed N < timeout) →
      ∃ out, wfcAux timeout elapsed polls percent fuel = some out ∧
        (out.complete = true ↔
          ∃ k, (polls k).status = "completed" ∧ ∀ j, j ≤ k → elapsed j < timeout) ∧
        (out.complete = false → out.warnPercent.isSome = true) := by
  intro fuel
  induction fuel with
  | zero =>
    rintro e p pc ⟨N, hN, _⟩
    exact absurd hN (Nat.not_lt_zero N)
  | succ f ih =>
    rintro e p pc ⟨N, hN, hNe⟩
    by_cases h0 : e 0 < timeout
    · by_cases hc : (p 0).status = "completed"
      · refine ⟨⟨true, none⟩, ?_, ?_, ?_⟩
        · simp [wfcAux, h0, hc]
        · constructor
          · intro _
            refine ⟨0, hc, ?_⟩
            intro j hj
            rw [Nat.le_zero.mp hj]
            exact h0
          · intro _
            rfl
        · intro hcontra
          exact Bool.noConfusion hcontra
      · have hN2 : ∃ M, M < f ∧ ¬ (fun n => e (n + 1)) M < timeout := by
          cases N with
          | zero => exact absurd h0 hNe
          | succ M => exact ⟨M, Nat.lt_of_succ_lt_succ hN, hNe⟩
        obtain ⟨out, heq, hiff, hwarn⟩ :=
          ih (fun n => e (n + 1)) (fun n => p (n + 1))
            (if (p 0).percent ≠ pc then (p 0).percent else pc) hN2
        refine ⟨out, ?_, ?_, hwarn⟩
        · rw [show wfcAux timeout e p pc (f + 1) =
            wfcAux timeout (fun n => e (n + 1)) (fun n => p (n + 1))
              (if (p 0).percent ≠ pc then (p 0).percent else pc) f by
              simp [wfcAux, h0, hc]]
          exact heq
        · rw [hiff]
          constructor
          · rintro ⟨k, hk, hkj⟩
            refine ⟨k + 1, hk, ?_⟩
            intro j hj
            cases j with
            | zero => exact h0
            | succ i => exact hkj i (Nat.succ_le_succ_iff.mp hj)
          · rintro ⟨k, hk, hkj⟩
            cases k with
            | zero => exact absurd hk hc
            | succ i =>
              exact ⟨i, hk, fun j hj => hkj (j + 1) (Nat.succ_le_succ hj)⟩
    · refine ⟨⟨false, some (if pc ≠ 0 then pc else 0)⟩, ?_, ?_, fun _ => rfl⟩
      · simp [wfcAux, h0]
      · constructor
        · intro hcontra
          exact Bool.noConfusion hcontra
        · rintro ⟨k, _, hkj⟩
          exact absurd (hkj 0 (Nat.zero_le k)) h0

/-- Claim C6: whenever the clock eventually exceeds the timeout within
the fuel, `wait_for_complete` returns — it never raises — and it
returns `true` exactly when a polled status of `completed` is observed
while the elapsed time is still below the timeout (at every clock test
up to that poll); on timeout it returns `false` and emits the warning
carrying the percent tracker. -/
theorem c6_wait_for_complete (timeout : ℚ) (elapsed : ℕ → ℚ) (polls : ℕ → StatusD)
    (fuel : ℕ) (hterm : ∃ N, N < fuel ∧ ¬ elapsed N < timeout) :
    ∃ out, waitForComplete timeout elapsed polls fuel = some out ∧
      (out.complete = true ↔
        ∃ k, (polls k).status = "completed" ∧ ∀ j, j ≤ k → elapsed j < timeout) ∧
      (out.complete = false → out.warnPercent.isSome = true) :=
  wfcAux_spec timeout fuel elapsed polls 100 hterm

/-- Claim C6 witness: a concrete run with timeout 10, clock readings
0, 6, 12, … and the second poll completed. -/
theorem c6_wait_for_complete_witness :
    ∃ out, waitForComplete 10 (fun n => 6 * (n : ℚ))
        (fun n => if n = 0 then ⟨"running", 50, 30⟩ else ⟨"completed", 100, 0⟩)
        3 = some out ∧
      (out.complete = true ↔
        ∃ k : ℕ, (if k = 0 then (⟨"running", 50, 30⟩ : StatusD)
            else ⟨"completed", 100, 0⟩).status = "completed" ∧
          ∀ j : ℕ, j ≤ k → 6 * (j : ℚ) < 10) ∧
      (out.complete = false → out.warnPercent.isSome = true) :=
  c6_wait_for_complete 10 (fun n => 6 * (n : ℚ))
    (fun n => if n = 0 then ⟨"running", 50, 30⟩ else ⟨"completed", 100, 0⟩) 3
    ⟨2, by norm_num, by norm_num⟩

/-- Claim C10: when the `timefilter` argument of `Report.run` is omitted
(`None`), the report is submitted with the `"last 5 min"` range
evaluated at call time — the criteria time frame runs from 300 seconds
before now to now — rather than failing or using an unbounded window;
an explicit filter is used as given. -/
theorem c10_default_timefilter (now : Int) :
    resolveTimefilter none now = parseRangeLast5Min now ∧
    runTimeFrame none now = ⟨now - 300, now⟩ ∧
    ∀ t : TimeFilter, runTimeFrame (some t) now = ⟨t.start, t.stop⟩ :=
  ⟨rfl, rfl, fun _ => rfl⟩

end NetProfiler
